import Mathlib

/-!
Verification of the Arckitek front end: a shallow embedding of the chat
orchestration (`src/components/ChatInterface.tsx`), the Gemini service
wrappers (`src/unnamed/part_000`, imported as `../services/geminiService`),
the image editor (`ImageEditor` in `src/components/ChatInterface.tsx`),
the app-level captured-image state (`src/App.tsx`), and the placeholder
cube projection (`drawCube` in the `ThreeDViewer` component).

JavaScript-specific semantics (string truthiness, `||` defaulting,
`String.prototype.trim`, `String.prototype.includes`) are modelled
explicitly so that the embedded handlers follow the source line by line.
The remote AI service is an oracle (`AIService`): each wrapper call is
given an arbitrary outcome (success, empty response, or thrown error),
and the handlers are total functions of the UI state and that oracle.
-/

namespace Arckitek

/-- JS truthiness of a `string | null` value: `null` and `''` are falsy. -/
def jsTruthy : Option String → Bool
  | none => false
  | some s => s ≠ ""

/-- JS `a || d` for `a : string | undefined`: yields `d` when `a` is
absent or the empty string (falsy), else `a`. -/
def jsOrStr : Option String → String → String
  | none, d => d
  | some s, d => if s = "" then d else s

/-- The whitespace characters removed by `String.prototype.trim`
(the ASCII ones; the source never feeds it exotic Unicode spaces). -/
def isJsWhitespace (c : Char) : Bool :=
  c = ' ' || c = '\t' || c = '\n' || c = '\r' || c = '\x0b' || c = '\x0c'

/-- JS `s.trim()`: strip leading and trailing whitespace. -/
def jsTrim (s : String) : String :=
  ⟨((s.toList.dropWhile isJsWhitespace).reverse.dropWhile isJsWhitespace).reverse⟩

/-- JS `s.includes(pat)`: substring containment. -/
def jsIncludes (s pat : String) : Bool :=
  decide (pat.toList <:+: s.toList)

/-- JS `s.toLowerCase()` (character-wise; the edit keywords are ASCII). -/
def jsToLower (s : String) : String :=
  ⟨s.toList.map Char.toLower⟩

/-- `image.split(',')[1] || image` in the service wrappers: the part after
the first comma of a data URI, or the whole string when there is no comma
(or the part is empty, which is falsy). -/
def stripDataUriPrefix (s : String) : String :=
  jsOrStr ((s.splitOn ",").get? 1) s

/-- The `role` field of a chat `Message` (`src/types.ts`). -/
inductive Role where
  | user
  | model
deriving DecidableEq, Repr

/-- One source citation shown under a model message: `title` and `uri`. -/
structure GroundingUrl where
  title : String
  uri : String
deriving DecidableEq, Repr

/-- A chat transcript entry (`Message` in `src/types.ts`): role plus
optional text, optional image, optional citations. -/
structure Message where
  role : Role
  text : Option String := none
  image : Option String := none
  groundingUrls : Option (List GroundingUrl) := none
deriving DecidableEq, Repr

/-- The `web` field of a grounding chunk returned by the SDK: both
`title` and `uri` may be absent. -/
structure WebInfo where
  title : Option String
  uri : Option String
deriving DecidableEq, Repr

/-- A grounding chunk returned by the SDK; its `web` field may be absent. -/
structure GroundingChunk where
  web : Option WebInfo
deriving DecidableEq, Repr

/-- `c => ({ title: c.web?.title || 'Source', uri: c.web?.uri || '' })`
from `handleSend`. -/
def mapChunk (c : GroundingChunk) : GroundingUrl :=
  { title := jsOrStr (c.web.bind WebInfo.title) "Source"
    uri := jsOrStr (c.web.bind WebInfo.uri) "" }

/-- One history entry sent to `sendMessage`:
`{ role: m.role, parts: [{ text: m.text || '' }] }`. -/
structure HistoryEntry where
  role : Role
  parts : List String
deriving DecidableEq, Repr

/-- The argument object of `sendMessage` in the Gemini service. -/
structure ChatRequest where
  history : List HistoryEntry
  message : String
  image : Option String
  useThinking : Bool
  useSearch : Bool
deriving DecidableEq, Repr

/-- The image generation settings (`ImageGenSettings` in `src/types.ts`). -/
structure ImageGenSettings where
  aspectRatio : String
  size : String
  prompt : String
deriving DecidableEq, Repr

/-- Outcome of an awaited `sendMessage` call as seen at the call site:
either a resolved `{ text, groundingChunks }` or a thrown error. -/
inductive ChatResult where
  | ok (text : String) (groundingChunks : List GroundingChunk)
  | err
deriving DecidableEq, Repr

/-- Outcome of an awaited `editImage` / `generateImage` call as seen at
the call site: a data-URI image, a `null` (no image in the response), or
a thrown error. -/
inductive ImageResult where
  | ok (img : String)
  | noImage
  | err
deriving DecidableEq, Repr

/-- The remote AI service as an oracle: the outcome of each wrapper call
as a function of its arguments. -/
structure AIService where
  editResult : String → String → ImageResult
  chatResult : ChatRequest → ChatResult
  genResult : String → String → String → ImageResult

/-- A record of one invocation of an AI capability. -/
inductive AICall where
  | edit (sourceImage : String) (prompt : String)
  | chat (req : ChatRequest)
  | gen (prompt : String) (size : String) (aspectRatio : String)
deriving DecidableEq, Repr

/-- The combined view state the claims range over: the `ChatInterface`
component state (`input`, `messages`, `isLoading`, `useThinking`,
`useSearch`, `showGenModal`, `genSettings`) together with `App`'s
`capturedImage`, which `ChatInterface` receives as its `initialImage`
prop and clears through `onClearImage`. -/
structure UIState where
  input : String
  messages : List Message
  isLoading : Bool
  useThinking : Bool
  useSearch : Bool
  showGenModal : Bool
  genSettings : ImageGenSettings
  capturedImage : Option String
deriving DecidableEq, Repr

/-- The initial transcript of `ChatInterface`. -/
def initialMessages : List Message :=
  [{ role := .model
     text := some "Welcome to Arckitek. Load a model, capture the viewport, or upload an image to analyze." }]

/-- `isEditRequest` in `handleSend`: an image is attached (truthy) and the
lowercased input contains one of the edit keywords. -/
def isEditRequest (capturedImage : Option String) (input : String) : Bool :=
  jsTruthy capturedImage &&
    (jsIncludes (jsToLower input) "add" || jsIncludes (jsToLower input) "remove" ||
     jsIncludes (jsToLower input) "change" || jsIncludes (jsToLower input) "filter")

/-- The early-return condition of `handleSend`:
`!input.trim() && !initialImage` (both falsy). -/
def sendGuard (s : UIState) : Bool :=
  jsTrim s.input = "" && !jsTruthy s.capturedImage

/-- The user message `handleSend` appends:
`{ role: 'user', text: input, image: initialImage || undefined }`. -/
def userMessage (s : UIState) : Message :=
  { role := .user
    text := some s.input
    image := if jsTruthy s.capturedImage then s.capturedImage else none }

/-- The `sendMessage` request `handleSend` builds in its chat branch:
simplified history from the current transcript, the typed message (or
the default analysis prompt), and the optional attached image. -/
def chatRequestOf (s : UIState) : ChatRequest :=
  { history := s.messages.map fun m => { role := m.role, parts := [jsOrStr m.text ""] }
    message := jsOrStr (userMessage s).text "Analyze this image"
    image := (userMessage s).image
    useThinking := s.useThinking
    useSearch := s.useSearch }

/-- The body of `handleSend`'s `try` block: the branch on
`isEditRequest && initialImage` picks `editImage` or `sendMessage`, and
the `try`/`catch` turns the call's outcome into the single model reply
appended to the transcript.  Returns that reply and the call record. -/
def sendReplyCall (svc : AIService) (s : UIState) : Message × AICall :=
  match s.capturedImage, isEditRequest s.capturedImage s.input with
  | some img, true =>
    let prompt := jsOrStr (userMessage s).text "Make requested edits"
    let reply : Message :=
      match svc.editResult img prompt with
      | .ok edited =>
        { role := .model, image := some edited, text := some "Here is the edited visualization." }
      | .noImage =>
        { role := .model, text := some "I tried to edit the image but couldn't generate a result." }
      | .err =>
        { role := .model, text := some "Sorry, I encountered an error." }
    (reply, .edit img prompt)
  | _, _ =>
    let reply : Message :=
      match svc.chatResult (chatRequestOf s) with
      | .ok text chunks =>
        { role := .model, text := some text, groundingUrls := some (chunks.map mapChunk) }
      | .err =>
        { role := .model, text := some "Sorry, I encountered an error." }
    (reply, .chat (chatRequestOf s))

/-- `handleSend` from `ChatInterface`, as a function of the service oracle
and the current state; returns the state after the handler (including the
`finally` block) and the list of AI calls it made.  The early return
`if (!input.trim() && !initialImage) return;` makes it a no-op; otherwise
the user message is appended, exactly one model reply from
`sendReplyCall` is appended, and `finally` resets `isLoading` and clears
a truthy attached image. -/
def handleSend (svc : AIService) (s : UIState) : UIState × List AICall :=
  if sendGuard s then (s, [])
  else
    ({ s with
        messages := s.messages ++ [userMessage s, (sendReplyCall svc s).1]
        input := ""
        isLoading := false
        capturedImage := if jsTruthy s.capturedImage then none else s.capturedImage },
     [(sendReplyCall svc s).2])

/-- The user message `handleGenImage` appends:
`` { role: 'user', text: `Generate ${size} image: ${prompt}` } ``. -/
def genUserMessage (g : ImageGenSettings) : Message :=
  { role := .user
    text := some ("Generate " ++ g.size ++ " image: " ++ g.prompt) }

/-- The model reply `handleGenImage` appends, from the outcome of its
`generateImage` call (`try`/`catch` included). -/
def genReply (svc : AIService) (g : ImageGenSettings) : Message :=
  match svc.genResult g.prompt g.size g.aspectRatio with
  | .ok img => { role := .model, image := some img, text := some "Generated concept." }
  | .noImage => { role := .model, text := some "Failed to generate image." }
  | .err => { role := .model, text := some "Error generating image." }

/-- `handleGenImage` from `ChatInterface`: closes the modal, appends the
user prompt message, calls `generateImage`, appends exactly one model
reply (image, failure note, or error note), and resets `isLoading`. -/
def handleGenImage (svc : AIService) (s : UIState) : UIState × List AICall :=
  ({ s with
      showGenModal := false
      isLoading := false
      messages := s.messages ++ [genUserMessage s.genSettings, genReply svc s.genSettings] },
   [.gen s.genSettings.prompt s.genSettings.size s.genSettings.aspectRatio])

/-- `config.tools` entries in `sendMessage`; the only tool used is
`{ googleSearch: {} }`. -/
inductive Tool where
  | googleSearch
deriving DecidableEq, Repr

/-- The model name and `config` object assembled by `sendMessage` from
`useThinking` and `useSearch`:
`if (useThinking) {...} else if (useSearch) {...} else {...}`. -/
structure ChatConfig where
  modelName : String
  thinkingBudget : Option Nat
  tools : Option (List Tool)
deriving DecidableEq, Repr

/-- The model-selection logic at the top of `sendMessage`. -/
def buildChatConfig (useThinking useSearch : Bool) : ChatConfig :=
  if useThinking then
    { modelName := "gemini-3-pro-preview", thinkingBudget := some 32768, tools := none }
  else if useSearch then
    { modelName := "gemini-2.5-flash", thinkingBudget := none, tools := some [.googleSearch] }
  else
    { modelName := "gemini-3-pro-preview", thinkingBudget := none, tools := none }

/-- Whether the assembled config carries web-search grounding. -/
def hasGoogleSearch (c : ChatConfig) : Bool :=
  match c.tools with
  | some ts => ts.contains .googleSearch
  | none => false

/-- A content part of an SDK response: `inlineData` is a mime type and
base64 payload when present; `text` when present. -/
structure Part where
  inlineData : Option (String × String) := none
  text : Option String := none
deriving DecidableEq, Repr

/-- The response-scanning loop shared by `editImage` and `generateImage`:
return a data URI for the first part carrying `inlineData`, else `null`. -/
def extractImage : List Part → Option String
  | [] => none
  | p :: rest =>
    match p.inlineData with
    | some (mime, data) => some ("data:" ++ mime ++ ";base64," ++ data)
    | none => extractImage rest

/-- The `userParts` array built by `sendMessage`: the text part, with the
inline image part unshifted to the front when an image is given. -/
def buildUserParts (message : String) (image : Option String) : List Part :=
  match image with
  | some img => [{ inlineData := some ("image/png", stripDataUriPrefix img) }, { text := some message }]
  | none => [{ text := some message }]

/-- The user interactions that can reach `handleSend` or `handleGenImage`. -/
inductive UIEvent where
  | clickSendButton
  | pressEnterInInput
  | clickGenerateInModal
deriving DecidableEq, Repr

/-- Whether an event reaches its handler in the given state: the send
button carries `disabled={isLoading}`, the input's `onKeyDown` Enter
handler has no such guard, and the modal's Generate button exists exactly
when `showGenModal` is true (and has no `disabled` attribute). -/
def eventFiresHandler (s : UIState) : UIEvent → Bool
  | .clickSendButton => !s.isLoading
  | .pressEnterInInput => true
  | .clickGenerateInModal => s.showGenModal

/-- The AI calls made when an event occurs in a state: the handler's
calls when the event reaches it, none otherwise. -/
def eventCalls (svc : AIService) (s : UIState) : UIEvent → List AICall
  | .clickSendButton => if s.isLoading then [] else (handleSend svc s).2
  | .pressEnterInInput => (handleSend svc s).2
  | .clickGenerateInModal => if s.showGenModal then (handleGenImage svc s).2 else []

/-- Whether an event starts at least one network call to the AI service. -/
def startsNetworkCall (svc : AIService) (s : UIState) (e : UIEvent) : Bool :=
  !(eventCalls svc s e).isEmpty

/-- Outcome of an awaited `editImage` call inside the `ImageEditor`. -/
inductive EditOutcome where
  | ok (img : String)
  | noImage
  | err
deriving DecidableEq, Repr

/-- The `ImageEditor` component state. -/
structure EditorState where
  prompt : String
  isGenerating : Bool
  generatedImage : Option String
  error : Option String
deriving DecidableEq, Repr

/-- The editor's initial state on mount. -/
def editorInit : EditorState :=
  { prompt := "", isGenerating := false, generatedImage := none, error := none }

/-- The user interactions inside the `ImageEditor`: typing into the
prompt field (its `onChange`), triggering `handleGenerate` (with the
outcome of its `editImage` call), clicking Save Changes, and clicking
Revert to Original. -/
inductive EditorEvent where
  | setPrompt (p : String)
  | generate (outcome : EditOutcome)
  | save
  | revert
deriving DecidableEq, Repr

/-- One `ImageEditor` interaction: returns the next editor state, the
image passed to `onSave` when one is emitted, and the `(source, prompt)`
arguments of the `editImage` call when one is made.  `handleGenerate`
returns early on a whitespace-only prompt; otherwise it edits
`generatedImage || imageSrc`, and on success stores the result and
clears the prompt.  `handleSave` calls `onSave` only when
`generatedImage` is truthy; Revert resets `generatedImage` to `null`. -/
def editorStep (imageSrc : String) (s : EditorState) :
    EditorEvent → EditorState × Option String × Option (String × String)
  | .setPrompt p => ({ s with prompt := p }, none, none)
  | .generate outcome =>
    if jsTrim s.prompt = "" then (s, none, none)
    else
      let src := jsOrStr s.generatedImage imageSrc
      let s1 :=
        match outcome with
        | .ok img =>
          { s with generatedImage := some img, prompt := "", error := none, isGenerating := false }
        | .noImage =>
          { s with error := some "Could not generate edit. Try a different prompt.", isGenerating := false }
        | .err =>
          { s with error := some "An error occurred during generation.", isGenerating := false }
      (s1, none, some (src, s.prompt))
  | .save =>
    if jsTruthy s.generatedImage then (s, s.generatedImage, none) else (s, none, none)
  | .revert => ({ s with generatedImage := none }, none, none)

/-- Run a list of editor interactions, threading `App`'s `capturedImage`:
`handleEditorSave` replaces it with each emitted image (`onSave` also
closes the editor in the app, but the editor state is kept here so that
a single run covers every prefix). -/
def editorRun (imageSrc : String) : EditorState → Option String → List EditorEvent →
    EditorState × Option String
  | s, captured, [] => (s, captured)
  | s, captured, e :: rest =>
    let (s1, emitted, _) := editorStep imageSrc s e
    editorRun imageSrc s1 (match emitted with | some g => some g | none => captured) rest

/-- The images delivered by successful `editImage` calls in a trace. -/
def okImages : List EditorEvent → List String
  | [] => []
  | .generate (.ok img) :: rest => img :: okImages rest
  | _ :: rest => okImages rest

/-- The eight cube vertices `{-1,1}^3` listed in `drawCube`, over any
field (the browser computes with floats; instantiating at `ℝ` gives the
idealised renderer, at `ℚ` an executable one). -/
def cubeVertices (α : Type) [Field α] : List (α × α × α) :=
  [(-1, -1, -1), (1, -1, -1), (1, 1, -1), (-1, 1, -1),
   (-1, -1, 1), (1, -1, 1), (1, 1, 1), (-1, 1, 1)]

/-- The per-vertex transform in `drawCube`, keeping the trigonometric
functions abstract (`c` for cosine, `s` for sine) so the definition is
the source's arithmetic and nothing else: rotate about Y by `rotY`,
rotate about X by `rotX`, then scale by the perspective factor
`200 / (200 + z)`. -/
def projectVertex {α : Type} [Field α] (c s : α → α) (rotX rotY size : α)
    (v : α × α × α) : α × α :=
  let x := v.1 * c rotY - v.2.2 * s rotY
  let z := v.1 * s rotY + v.2.2 * c rotY
  let y := v.2.1 * c rotX - z * s rotX
  let z2 := v.2.1 * s rotX + z * c rotX
  let scale := 200 / (200 + z2)
  (x * size * scale, y * size * scale)

/-- A planar rotation step as the claim words it: `(a, b)` rotated with
cosine `c` and sine `s`. -/
def rot2 {α : Type} [Field α] (c s : α) (p : α × α) : α × α :=
  (p.1 * c - p.2 * s, p.1 * s + p.2 * c)

/-- The claim's closed form for the vertex offset, stated from the spec
sentence: rotate `(vx, vz)` about Y, rotate `(vy, z1)` about X, then
place the vertex at `(vx1 * size * scl, vy1 * size * scl)` with
`scl = 200 / (200 + z2)`. -/
def projectVertexClaim {α : Type} [Field α] (c s : α → α) (rotX rotY size : α)
    (v : α × α × α) : α × α :=
  let yRot := rot2 (c rotY) (s rotY) (v.1, v.2.2)
  let xRot := rot2 (c rotX) (s rotX) (v.2.1, yRot.2)
  let scl := 200 / (200 + xRot.2)
  (yRot.1 * size * scl, xRot.1 * size * scl)

/-! Concrete fixtures used by witnesses and counterexamples. -/

/-- A service oracle whose calls all succeed. -/
def svcOk : AIService :=
  { editResult := fun _ _ => .ok "data:image/png;base64,edited"
    chatResult := fun _ => .ok "Here is my analysis." []
    genResult := fun _ _ _ => .ok "data:image/png;base64,generated" }

/-- A service oracle whose calls all throw. -/
def svcErr : AIService :=
  { editResult := fun _ _ => .err
    chatResult := fun _ => .err
    genResult := fun _ _ _ => .err }

/-- A service oracle whose image calls resolve with no inline image. -/
def svcNoImage : AIService :=
  { editResult := fun _ _ => .noImage
    chatResult := fun _ => .ok "text only" []
    genResult := fun _ _ _ => .noImage }

/-- Default generation settings, as initialised in `ChatInterface`. -/
def defaultGen : ImageGenSettings :=
  { aspectRatio := "1:1", size := "1K", prompt := "" }

/-- A freshly mounted UI with the text "hello" typed. -/
def stateChat : UIState :=
  { input := "hello", messages := initialMessages, isLoading := false,
    useThinking := false, useSearch := false, showGenModal := false,
    genSettings := defaultGen, capturedImage := none }

/-- A state with an attached image and an edit-keyword input. -/
def stateEdit : UIState :=
  { stateChat with input := "add a tree", capturedImage := some "IMG" }

/-- A state with a whitespace-only input and no attached image. -/
def stateBlank : UIState :=
  { stateChat with input := "   " }

/-- A state in which a call is already outstanding. -/
def stateLoading : UIState :=
  { stateChat with isLoading := true, input := "hi" }

/-! Helper lemmas. -/

/-- Any transcript entry's role is `user` or `model` (the `Role` type has
no other constructor). -/
theorem roles_valid (l : List Message) :
    l.all (fun m => m.role == .user || m.role == .model) = true := by
  induction l with
  | nil => rfl
  | cons m rest ih =>
    simp only [List.all_cons, ih, Bool.and_true]
    cases m.role <;> rfl

/-- Truthiness of an optional string unpacked. -/
theorem jsTruthy_eq_true_iff (o : Option String) :
    jsTruthy o = true ↔ ∃ x, o = some x ∧ x ≠ "" := by
  cases o with
  | none => simp [jsTruthy]
  | some x => simp [jsTruthy]

/-- A truthy attached image forces the send guard to pass. -/
theorem guard_false_of_truthy {s : UIState} (h : jsTruthy s.capturedImage = true) :
    sendGuard s = false := by
  simp [sendGuard, h]

/-- An image is in `okImages` exactly when the trace contains the
corresponding successful generation event. -/
theorem mem_okImages {img : String} :
    ∀ {evts : List EditorEvent},
      img ∈ okImages evts ↔ EditorEvent.generate (.ok img) ∈ evts := by
  intro evts
  induction evts with
  | nil => simp [okImages]
  | cons e rest ih =>
    cases e with
    | setPrompt p => simp [okImages, ih, List.mem_cons]
    | generate outcome =>
      cases outcome with
      | ok i => simp [okImages, ih, List.mem_cons]
      | noImage => simp [okImages, ih, List.mem_cons]
      | err => simp [okImages, ih, List.mem_cons]
    | save => simp [okImages, ih, List.mem_cons]
    | revert => simp [okImages, ih, List.mem_cons]

/-! Claim theorems. -/

/-- C8: when the input is empty or whitespace-only and no image is
attached, `handleSend` is a no-op — the transcript, the input field,
`isLoading`, and the attached-image state are unchanged and no AI call
is made. -/
theorem handleSend_noop_on_blank (svc : AIService) (s : UIState)
    (h1 : jsTrim s.input = "") (h2 : s.capturedImage = none) :
    handleSend svc s = (s, []) := by
  have hg : sendGuard s = true := by simp [sendGuard, h1, h2, jsTruthy]
  simp [handleSend, hg]

/-- C8 witness: the no-op at a whitespace-only input with no image. -/
theorem handleSend_noop_on_blank_witness :
    jsTrim stateBlank.input = "" ∧ stateBlank.capturedImage = none ∧
    handleSend svcOk stateBlank = (stateBlank, []) :=
  ⟨by decide, rfl, handleSend_noop_on_blank svcOk stateBlank (by decide) rfl⟩

/-- C9: a send with a (truthy) attached image always clears the
attached-image context afterwards (`onClearImage` runs in `finally`,
whatever the call's outcome), and makes exactly one AI call — the image
is consumed by exactly one send. -/
theorem attached_image_consumed (svc : AIService) (s : UIState)
    (h : jsTruthy s.capturedImage = true) :
    (handleSend svc s).1.capturedImage = none ∧ (handleSend svc s).2.length = 1 := by
  have hg := guard_false_of_truthy h
  constructor
  · simp [handleSend, hg, h]
  · simp [handleSend, hg]

/-- C9 witness: a send with an attached image, evaluated concretely. -/
theorem attached_image_consumed_witness :
    jsTruthy stateEdit.capturedImage = true ∧
    (handleSend svcOk stateEdit).1.capturedImage = none ∧
    (handleSend svcOk stateEdit).2.length = 1 :=
  ⟨by decide, attached_image_consumed svcOk stateEdit (by decide)⟩

/-- C4 counterexample: with `useThinking` and `useSearch` both true,
`sendMessage` configures extended thinking but drops the `googleSearch`
tool (`else if`), so the search option is not honoured independently. -/
theorem search_dropped_when_thinking :
    (buildChatConfig true true).thinkingBudget.isSome = true ∧
    hasGoogleSearch (buildChatConfig true true) = false :=
  ⟨rfl, rfl⟩

/-- C4 (amended): `sendMessage` configures a `thinkingConfig` exactly
when `useThinking` is true, and the `googleSearch` tool exactly when
`useSearch` is true and `useThinking` is false — thinking takes
precedence over search. -/
theorem chatConfig_thinking_precedence (ut us : Bool) :
    (buildChatConfig ut us).thinkingBudget.isSome = ut ∧
    hasGoogleSearch (buildChatConfig ut us) = (us && !ut) := by
  cases ut <;> cases us <;> exact ⟨rfl, rfl⟩

/-- C2 counterexample: with a call outstanding (`isLoading = true`),
pressing Enter in the input field — and likewise clicking Generate in
the open modal — starts another network call: those two paths have no
`isLoading` guard, so a second call can be outstanding. -/
theorem enterKey_starts_call_while_loading :
    stateLoading.isLoading = true ∧
    startsNetworkCall svcOk stateLoading .pressEnterInInput = true ∧
    startsNetworkCall svcOk { stateLoading with showGenModal := true }
      .clickGenerateInModal = true :=
  ⟨rfl, by decide, by decide⟩

/-- C2 (amended): the send *button* cannot start a call while
`isLoading` is true (it is disabled), and `isLoading` is back to false
after any handler run that made a call (for `handleGenImage`,
unconditionally); but the Enter key and the modal's Generate button are
not guarded by `isLoading`, so a second call can start while one is
outstanding. -/
theorem sendButton_guard_and_loading_reset (svc : AIService) (s : UIState) :
    (startsNetworkCall svc s .clickSendButton = true → s.isLoading = false) ∧
    ((handleSend svc s).2 ≠ [] → (handleSend svc s).1.isLoading = false) ∧
    (handleGenImage svc s).1.isLoading = false := by
  refine ⟨?_, ?_, rfl⟩
  · intro h
    by_contra hl
    rw [Bool.not_eq_false] at hl
    simp [startsNetworkCall, eventCalls, hl] at h
  · intro h
    by_cases hg : sendGuard s = true
    · simp [handleSend, hg] at h
    · rw [Bool.not_eq_true] at hg
      simp [handleSend, hg]

/-- C2 witness: the amended statement at a concrete idle state. -/
theorem sendButton_guard_and_loading_reset_witness :
    (startsNetworkCall svcOk stateChat .clickSendButton = true →
      stateChat.isLoading = false) ∧
    ((handleSend svcOk stateChat).2 ≠ [] →
      (handleSend svcOk stateChat).1.isLoading = false) ∧
    (handleGenImage svcOk stateChat).1.isLoading = false :=
  sendButton_guard_and_loading_reset svcOk stateChat

/-- C6: the placeholder cube renderer's per-vertex computation is the
closed-form transform the spec states: rotate about Y by `rotY`, rotate
about X by `rotX`, scale by `200 / (200 + z₂)`, and place the vertex at
that offset from the cube centre (`ctx.translate` moves the origin
there).  The equality holds for every vertex and in particular for the
eight cube vertices `{-1,1}^3`; both sides are total functions of the
frame's arguments alone — no branching, no state across frames. -/
theorem drawCube_closed_form {α : Type} [Field α] (c s : α → α) (rotX rotY size : α) :
    (∀ v, projectVertex c s rotX rotY size v = projectVertexClaim c s rotX rotY size v) ∧
    (cubeVertices α).map (projectVertex c s rotX rotY size) =
      (cubeVertices α).map (projectVertexClaim c s rotX rotY size) :=
  ⟨fun _ => rfl, rfl⟩

/-- C5: both transcript handlers only append: after `handleSend` or
`handleGenImage`, the message list is the old list followed by a suffix
of new messages (zero or two), each with role `user` or `model`; no
existing entry is removed, reordered, or mutated, and the rendering maps
the list in order, so display order is insertion order. -/
theorem transcript_append_only (svc : AIService) (s : UIState) :
    (∃ suffix, (handleSend svc s).1.messages = s.messages ++ suffix ∧
       suffix.all (fun m => m.role == .user || m.role == .model) = true) ∧
    (∃ suffix, (handleGenImage svc s).1.messages = s.messages ++ suffix ∧
       suffix.all (fun m => m.role == .user || m.role == .model) = true) := by
  constructor
  · by_cases hg : sendGuard s = true
    · exact ⟨[], by simp [handleSend, hg], rfl⟩
    · rw [Bool.not_eq_true] at hg
      exact ⟨[userMessage s, (sendReplyCall svc s).1],
        by simp [handleSend, hg], roles_valid _⟩
  · exact ⟨[genUserMessage s.genSettings, genReply svc s.genSettings], rfl, roles_valid _⟩

/-- Under an always-throwing service, the `try`/`catch` in `handleSend`
yields the generic error reply in both branches. -/
theorem sendReplyCall_err (svc : AIService) (s : UIState)
    (hedit : ∀ a b, svc.editResult a b = .err)
    (hchat : ∀ r, svc.chatResult r = .err) :
    (sendReplyCall svc s).1 =
      { role := .model, text := some "Sorry, I encountered an error." } := by
  rcases hc : s.capturedImage with _ | img
  · simp [sendReplyCall, hc, hchat]
  · cases he : isEditRequest (some img) s.input
    · simp [sendReplyCall, hc, he, hchat]
    · simp [sendReplyCall, hc, he, hedit]

/-- C1: if the underlying AI call throws, the handler catches it at the
call site: exactly one call was made (nothing retried), the transcript
receives the user's message followed by one generic model message, and
`isLoading` is reset to false by the `finally` block, leaving the
application usable. -/
theorem errorOutcome_surfaced (svc : AIService) (s : UIState)
    (hedit : ∀ a b, svc.editResult a b = .err)
    (hchat : ∀ r, svc.chatResult r = .err)
    (hgen : ∀ a b c, svc.genResult a b c = .err)
    (hg : sendGuard s = false) :
    ((handleSend svc s).1.isLoading = false ∧
     (handleSend svc s).2.length = 1 ∧
     (handleSend svc s).1.messages =
        s.messages ++ [userMessage s,
          { role := .model, text := some "Sorry, I encountered an error." }]) ∧
    ((handleGenImage svc s).1.isLoading = false ∧
     (handleGenImage svc s).2.length = 1 ∧
     (handleGenImage svc s).1.messages =
        s.messages ++ [genUserMessage s.genSettings,
          { role := .model, text := some "Error generating image." }]) := by
  refine ⟨⟨?_, ?_, ?_⟩, rfl, rfl, ?_⟩
  · simp [handleSend, hg]
  · simp [handleSend, hg]
  · simp [handleSend, hg, sendReplyCall_err svc s hedit hchat]
  · simp [handleGenImage, genReply, hgen]

/-- C1 witness: an always-throwing service at a concrete idle state. -/
theorem errorOutcome_surfaced_witness :
    ((handleSend svcErr stateChat).1.isLoading = false ∧
     (handleSend svcErr stateChat).2.length = 1 ∧
     (handleSend svcErr stateChat).1.messages =
        stateChat.messages ++ [userMessage stateChat,
          { role := .model, text := some "Sorry, I encountered an error." }]) ∧
    ((handleGenImage svcErr stateChat).1.isLoading = false ∧
     (handleGenImage svcErr stateChat).2.length = 1 ∧
     (handleGenImage svcErr stateChat).1.messages =
        stateChat.messages ++ [genUserMessage stateChat.genSettings,
          { role := .model, text := some "Error generating image." }]) :=
  errorOutcome_surfaced svcErr stateChat (fun _ _ => rfl) (fun _ => rfl)
    (fun _ _ _ => rfl) (by decide)

/-- C3: a send that passes the guard makes exactly one AI call — an
`editImage` call when an image is attached and the lowercased input
contains one of the keywords add / remove / change / filter, a
`sendMessage` call otherwise, and never a `generateImage` call; the
generate action alone calls `generateImage`. -/
theorem send_dispatch (svc : AIService) (s : UIState)
    (hg : sendGuard s = false) :
    ((handleSend svc s).2.length = 1 ∧
     (isEditRequest s.capturedImage s.input = true →
        ∃ src p, (handleSend svc s).2 = [.edit src p]) ∧
     (isEditRequest s.capturedImage s.input = false →
        ∃ req, (handleSend svc s).2 = [.chat req]) ∧
     (∀ p sz a, AICall.gen p sz a ∉ (handleSend svc s).2)) ∧
    (∃ p sz a, (handleGenImage svc s).2 = [.gen p sz a]) := by
  refine ⟨⟨?_, ?_, ?_, ?_⟩, ?_⟩
  · simp [handleSend, hg]
  · intro he
    have ht : jsTruthy s.capturedImage = true := by
      have h := he
      unfold isEditRequest at h
      exact (Bool.and_eq_true _ _).mp h |>.1
    rcases (jsTruthy_eq_true_iff _).mp ht with ⟨img, hc, _⟩
    rw [hc] at he
    exact ⟨img, jsOrStr (userMessage s).text "Make requested edits",
      by simp [handleSend, hg, sendReplyCall, hc, he]⟩
  · intro he
    refine ⟨chatRequestOf s, ?_⟩
    rcases hc : s.capturedImage with _ | img
    · simp [handleSend, hg, sendReplyCall, hc]
    · rw [hc] at he
      simp [handleSend, hg, sendReplyCall, hc, he]
  · intro p sz a hmem
    rcases hc : s.capturedImage with _ | img
    · simp [handleSend, hg, sendReplyCall, hc] at hmem
    · cases he : isEditRequest (some img) s.input
      · simp [handleSend, hg, sendReplyCall, hc, he] at hmem
      · simp [handleSend, hg, sendReplyCall, hc, he] at hmem
  · exact ⟨_, _, _, rfl⟩

/-- C3 witness: the chat branch at a concrete state with no image. -/
theorem send_dispatch_witness :
    ((handleSend svcOk stateChat).2.length = 1 ∧
     (isEditRequest stateChat.capturedImage stateChat.input = true →
        ∃ src p, (handleSend svcOk stateChat).2 = [.edit src p]) ∧
     (isEditRequest stateChat.capturedImage stateChat.input = false →
        ∃ req, (handleSend svcOk stateChat).2 = [.chat req]) ∧
     (∀ p sz a, AICall.gen p sz a ∉ (handleSend svcOk stateChat).2)) ∧
    (∃ p sz a, (handleGenImage svcOk stateChat).2 = [.gen p sz a]) :=
  send_dispatch svcOk stateChat (by decide)

/-- The response-scanning loop returns `null` when no part carries
inline image data. -/
theorem extractImage_eq_none (parts : List Part)
    (h : ∀ p ∈ parts, p.inlineData = none) :
    extractImage parts = none := by
  induction parts with
  | nil => rfl
  | cons p rest ih =>
    have hp := h p (List.mem_cons_self _ _)
    simp only [extractImage, hp]
    exact ih fun q hq => h q (List.mem_cons_of_mem _ hq)

/-- C7: an AI response with no inline image part makes `editImage` /
`generateImage` return `null` (no exception), and the callers surface
that `null` as a generic model chat message while resetting `isLoading`
— not as an application failure. -/
theorem empty_response_surfaced (svc : AIService) (s : UIState) (parts : List Part)
    (hparts : ∀ p ∈ parts, p.inlineData = none)
    (hedit : ∀ a b, svc.editResult a b = .noImage)
    (hgen : ∀ a b c, svc.genResult a b c = .noImage)
    (he : isEditRequest s.capturedImage s.input = true) :
    extractImage parts = none ∧
    ((handleSend svc s).1.isLoading = false ∧
     (handleSend svc s).1.messages = s.messages ++ [userMessage s,
       { role := .model, text := some "I tried to edit the image but couldn't generate a result." }]) ∧
    ((handleGenImage svc s).1.isLoading = false ∧
     (handleGenImage svc s).1.messages = s.messages ++ [genUserMessage s.genSettings,
       { role := .model, text := some "Failed to generate image." }]) := by
  have ht : jsTruthy s.capturedImage = true := by
    have h := he
    unfold isEditRequest at h
    exact (Bool.and_eq_true _ _).mp h |>.1
  have hg := guard_false_of_truthy ht
  rcases (jsTruthy_eq_true_iff _).mp ht with ⟨img, hc, _⟩
  rw [hc] at he
  refine ⟨extractImage_eq_none parts hparts, ⟨?_, ?_⟩, rfl, ?_⟩
  · simp [handleSend, hg]
  · simp [handleSend, hg, sendReplyCall, hc, he, hedit]
  · simp [handleGenImage, genReply, hgen]

/-- C7 witness: a no-inline-image response and service at a concrete
state in the edit branch. -/
theorem empty_response_surfaced_witness :
    extractImage [{ text := some "no image here" }] = none ∧
    ((handleSend svcNoImage stateEdit).1.isLoading = false ∧
     (handleSend svcNoImage stateEdit).1.messages = stateEdit.messages ++
       [userMessage stateEdit,
        { role := .model, text := some "I tried to edit the image but couldn't generate a result." }]) ∧
    ((handleGenImage svcNoImage stateEdit).1.isLoading = false ∧
     (handleGenImage svcNoImage stateEdit).1.messages = stateEdit.messages ++
       [genUserMessage stateEdit.genSettings,
        { role := .model, text := some "Failed to generate image." }]) :=
  empty_response_surfaced svcNoImage stateEdit [{ text := some "no image here" }]
    (by intro p hp; simp at hp; rw [hp]) (fun _ _ => rfl) (fun _ _ _ => rfl) (by decide)

/-- Trace invariant for the editor run: for any predicate `P` holding of
every successfully generated image in the trace, `P` holds of whatever
`generatedImage` ends up containing, and the captured image is either
untouched or one of those `P`-images. -/
theorem editorRun_inv (imageSrc : String) (P : String → Prop) :
    ∀ (evts : List EditorEvent) (s : EditorState) (captured : Option String),
      (∀ img, EditorEvent.generate (.ok img) ∈ evts → P img) →
      (∀ g, s.generatedImage = some g → P g) →
      (∀ g, (editorRun imageSrc s captured evts).1.generatedImage = some g → P g) ∧
      ((editorRun imageSrc s captured evts).2 = captured ∨
       ∃ g, (editorRun imageSrc s captured evts).2 = some g ∧ P g) := by
  intro evts
  induction evts with
  | nil =>
    intro s captured _ hs
    exact ⟨hs, Or.inl rfl⟩
  | cons e rest ih =>
    intro s captured hevts hs
    have hrest : ∀ img, EditorEvent.generate (.ok img) ∈ rest → P img :=
      fun img hm => hevts img (List.mem_cons_of_mem _ hm)
    cases e with
    | setPrompt p =>
      have h := ih { s with prompt := p } captured hrest (by simpa using hs)
      simpa [editorRun, editorStep] using h
    | generate outcome =>
      by_cases hp : jsTrim s.prompt = ""
      · have h := ih s captured hrest hs
        simpa [editorRun, editorStep, hp] using h
      · cases outcome with
        | ok img =>
          have himg : P img := hevts img (List.mem_cons_self _ _)
          have h := ih
            { s with generatedImage := some img, prompt := "", error := none, isGenerating := false }
            captured hrest (by intro g hgg; simp at hgg; rw [← hgg]; exact himg)
          simpa [editorRun, editorStep, hp] using h
        | noImage =>
          have h := ih
            { s with error := some "Could not generate edit. Try a different prompt.", isGenerating := false }
            captured hrest (by simpa using hs)
          simpa [editorRun, editorStep, hp] using h
        | err =>
          have h := ih
            { s with error := some "An error occurred during generation.", isGenerating := false }
            captured hrest (by simpa using hs)
          simpa [editorRun, editorStep, hp] using h
    | save =>
      by_cases ht : jsTruthy s.generatedImage = true
      · rcases (jsTruthy_eq_true_iff _).mp ht with ⟨g, hgg, _⟩
        rw [hgg] at ht
        have hPg : P g := hs g hgg
        have h := ih s (some g) hrest hs
        refine ⟨?_, ?_⟩
        · intro g2 hg2
          exact h.1 g2 (by simpa [editorRun, editorStep, ht, hgg] using hg2)
        · rcases h.2 with h2 | ⟨g3, hg3, hPg3⟩
          · exact Or.inr ⟨g, by simpa [editorRun, editorStep, ht, hgg] using h2, hPg⟩
          · exact Or.inr ⟨g3, by simpa [editorRun, editorStep, ht, hgg] using hg3, hPg3⟩
      · rw [Bool.not_eq_true] at ht
        have h := ih s captured hrest hs
        simpa [editorRun, editorStep, ht] using h
    | revert =>
      have h := ih { s with generatedImage := none } captured hrest (by simp)
      simpa [editorRun, editorStep] using h

/-- C10: running any sequence of `ImageEditor` interactions from the
mount state, (1) the app's captured image either stays exactly what it
was — in particular after closing the editor, or clicking Save before
any successful edit — or is replaced by an image delivered by a
successful `editImage` call of the trace (`onSave` only ever passes such
an image, since the Save button is a no-op while `generatedImage` is
unset); (2) `generatedImage` itself only ever holds such an image; and
(3) every `editImage` call the editor makes uses the latest generated
image as its source, falling back to the original `imageSrc` when none
exists, with the current prompt. -/
theorem imageEditor_save_provenance (imageSrc : String) (captured : Option String)
    (evts : List EditorEvent) :
    ((editorRun imageSrc editorInit captured evts).2 = captured ∨
     ∃ g, (editorRun imageSrc editorInit captured evts).2 = some g ∧
       EditorEvent.generate (.ok g) ∈ evts) ∧
    (∀ g, (editorRun imageSrc editorInit captured evts).1.generatedImage = some g →
       EditorEvent.generate (.ok g) ∈ evts) ∧
    (∀ s e src p, (editorStep imageSrc s e).2.2 = some (src, p) →
       src = jsOrStr s.generatedImage imageSrc ∧ p = s.prompt) := by
  have h := editorRun_inv imageSrc (fun g => EditorEvent.generate (.ok g) ∈ evts)
    evts editorInit captured (fun _ hm => hm) (by intro g hgg; simp [editorInit] at hgg)
  refine ⟨h.2, h.1, ?_⟩
  intro s e src p hcall
  cases e with
  | setPrompt q => simp [editorStep] at hcall
  | generate outcome =>
    by_cases hp : jsTrim s.prompt = ""
    · simp [editorStep, hp] at hcall
    · cases outcome <;>
        · simp [editorStep, hp] at hcall
          exact ⟨hcall.1.symm, hcall.2.symm⟩
  | save =>
    by_cases ht : jsTruthy s.generatedImage = true
    · simp [editorStep, ht] at hcall
    · rw [Bool.not_eq_true] at ht
      simp [editorStep, ht] at hcall
  | revert => simp [editorStep] at hcall

/-- C10 witness: a concrete session — type a prompt, succeed once, save
— evaluated through the theorem. -/
theorem imageEditor_save_provenance_witness :
    ((editorRun "ORIG" editorInit (some "ORIG")
        [.setPrompt "add a tower", .generate (.ok "G"), .save]).2 = some "ORIG" ∨
     ∃ g, (editorRun "ORIG" editorInit (some "ORIG")
        [.setPrompt "add a tower", .generate (.ok "G"), .save]).2 = some g ∧
       EditorEvent.generate (.ok g) ∈
         [EditorEvent.setPrompt "add a tower", .generate (.ok "G"), .save]) ∧
    (∀ g, (editorRun "ORIG" editorInit (some "ORIG")
        [.setPrompt "add a tower", .generate (.ok "G"), .save]).1.generatedImage = some g →
       EditorEvent.generate (.ok g) ∈
         [EditorEvent.setPrompt "add a tower", .generate (.ok "G"), .save]) ∧
    (∀ s e src p, (editorStep "ORIG" s e).2.2 = some (src, p) →
       src = jsOrStr s.generatedImage "ORIG" ∧ p = s.prompt) :=
  imageEditor_save_provenance "ORIG" (some "ORIG")
    [.setPrompt "add a tower", .generate (.ok "G"), .save]

end Arckitek
